import Mathlib

/-!
Verification of the LICS school-data extraction engine.

This file gives a shallow embedding, in Lean 4, of the extraction engine of
the LICS repository (a collection of per-site web scrapers written in
Python), and proves properties of that embedding.

Modelling conventions, used throughout:

* A Python string is modelled as a Lean `List Char` (`PyStr`); Python string
  slicing, `.upper()`, `.lower()`, `.strip()`, `in`, `.join` and
  whitespace-collapsing translate to executable functions on `List Char`.
* The text content of an HTML node obtained with `get_text(strip=True)` is
  modelled as an already-stripped `PyStr` supplied by the document structure;
  a parsed document is modelled as a structure holding exactly the pieces
  the Python code queries from it (selected tables as lists of rows of cell
  texts, selected panels, paragraph texts, and so on).
* A Python dict built by item assignment is modelled as an association list
  updated by `pyDictSet` (replace in place if the key is present, else
  append), which matches insertion-ordered Python dict semantics.
* The status-dictionary results (`{"status": ..., "message": ..., "data": ...}`)
  returned by every extraction procedure are modelled by `PyResult`.
* Network fetches and HTML parsing can raise; a fetched-and-parsed document
  is therefore passed to each category method as an `Except PyStr doc`
  value, and the `try/except` wrapper of each category method is the
  combinator `pyTryFetch`.
-/

namespace LICS

/-- A Python string, modelled as its list of characters. -/
abbrev PyStr := List Char

/-- Coerce a Lean string literal to the `PyStr` model. -/
def pyStr (s : String) : PyStr := s.toList

/-- Boolean prefix test on character lists. -/
def isPrefixB : PyStr → PyStr → Bool
  | [], _ => true
  | _ :: _, [] => false
  | a :: as, b :: bs => a == b && isPrefixB as bs

/-- Python's `needle in haystack` substring test. -/
def pyIn (needle : PyStr) : PyStr → Bool
  | [] => needle.isEmpty
  | c :: rest => isPrefixB needle (c :: rest) || pyIn needle rest

/-- Python's `str.upper()` (ASCII case mapping). -/
def pyUpper (s : PyStr) : PyStr := s.map Char.toUpper

/-- Python's `str.lower()` (ASCII case mapping). -/
def pyLower (s : PyStr) : PyStr := s.map Char.toLower

/-- Python's `str.strip()`: drop leading and trailing whitespace. -/
def pyStrip (s : PyStr) : PyStr :=
  ((s.dropWhile Char.isWhitespace).reverse.dropWhile Char.isWhitespace).reverse

/-- Python's `sep.join(parts)`. -/
def pyJoin (sep : PyStr) : List PyStr → PyStr
  | [] => []
  | [x] => x
  | x :: y :: rest => x ++ sep ++ pyJoin sep (y :: rest)

/-- Auxiliary scan for collapsing runs of characters matched by `p` to the
single replacement `rep`; the boolean flag records whether the previous
character belonged to a run. -/
def collapseRunsAux (p : Char → Bool) (rep : Char) : PyStr → Bool → PyStr
  | [], _ => []
  | c :: cs, inRun =>
    if p c then
      if inRun then collapseRunsAux p rep cs true
      else rep :: collapseRunsAux p rep cs true
    else c :: collapseRunsAux p rep cs false

/-- Python's `re.sub(r'\s+', ' ', s)`: fold each whitespace run to one space. -/
def pyCollapseWS (s : PyStr) : PyStr := collapseRunsAux (·.isWhitespace) ' ' s false

/-- Python's `re.sub(r'\n+', '\n', s)`: fold each newline run to one newline. -/
def pyCollapseNL (s : PyStr) : PyStr := collapseRunsAux (· == '\n') '\n' s false

/-- Python's `str.split()`: split on whitespace runs, dropping empty words. -/
def pySplitWS (s : PyStr) : List PyStr :=
  (s.splitOnP Char.isWhitespace).filter (· ≠ [])

/-- Python's `int(s)` on an already-stripped string: an optional sign followed
by at least one decimal digit, else a `ValueError` (modelled as `none`). -/
def digitsVal (s : PyStr) : Option Nat :=
  if s ≠ [] ∧ s.all (·.isDigit) then
    some (s.foldl (fun a c => a * 10 + (c.toNat - 48)) 0)
  else none

/-- Python's `int(s)` conversion (for already-stripped input). -/
def pyParseInt (s : PyStr) : Option Int :=
  match s with
  | '+' :: rest => (digitsVal rest).map Int.ofNat
  | '-' :: rest => (digitsVal rest).map (fun n => -(n : Int))
  | _ => (digitsVal s).map Int.ofNat

/-- Python dict item assignment `d[k] = v` on an insertion-ordered
association list: replace in place when the key exists, else append. -/
def pyDictSet {α β : Type} [DecidableEq α] : List (α × β) → α → β → List (α × β)
  | [], k, v => [(k, v)]
  | (k', v') :: rest, k, v =>
    if k' = k then (k, v) :: rest else (k', v') :: pyDictSet rest k v

/-- The status-dictionary shape returned by every extraction procedure:
`{"status": ..., "message"?: ..., "data"?: ...}`. -/
structure PyResult (α : Type) where
  status : String
  message : Option PyStr := none
  data : Option α := none
deriving DecidableEq

/-- The `return {"status": "error", "message": str(e)}` shape used by every
category method's `except` clause (and by early error returns). -/
def pyErr {α : Type} (e : PyStr) : PyResult α :=
  { status := "error", message := some e }

/-- The `return {"status": "success", "data": ...}` shape. -/
def pySuccess {α : Type} (d : α) : PyResult α :=
  { status := "success", data := some d }

/-- The six status variants of the `ExtractionResult` tagged union. -/
def sixStatuses : List String :=
  ["success", "partial", "warning", "skipped", "not_implemented", "error"]

/-- The `try: ... except Exception as e: return error(str(e))` wrapper shared
by every category method: the body runs on the fetched-and-parsed document,
and an exception raised while fetching or parsing (the `Except.error` case)
is converted to an error-status result carrying the exception's message. -/
def pyTryFetch {δ α : Type} (body : δ → PyResult α) : Except PyStr δ → PyResult α
  | .ok doc => body doc
  | .error e => pyErr e

/-! ## ISM tuition-fee extractor (`ISMScraper.scrape_tuition_fees`) -/

/-- A table row: the `get_text(strip=True)` texts of its `td`/`th` cells. -/
abbrev Row := List PyStr

/-- The two program sections the tuition table scan can be in. -/
inductive Sect
  | regular
  | specialized
deriving DecidableEq

/-- One tuition-fee entry `{"annual": ..., "semester1": ..., "semester2": ...}`. -/
structure FeeEntry where
  annual : PyStr
  semester1 : PyStr
  semester2 : PyStr
deriving DecidableEq

/-- The `tuition_data` dictionary built by `scrape_tuition_fees`. -/
structure TuitionData where
  regular_program : List (PyStr × FeeEntry) := []
  specialized_program : List (PyStr × FeeEntry) := []
  additional_fees : List (PyStr × PyStr) := []
  other_fees : List (PyStr × PyStr) := []
deriving DecidableEq

/-- State of a one-pass tuition table scan: the `current_section` variable
plus the rows attributed so far to each section. -/
structure TuitScanState where
  current : Option Sect := none
  regular : List (PyStr × FeeEntry) := []
  specialized : List (PyStr × FeeEntry) := []
deriving DecidableEq

/-- One iteration of the primary table scan of `scrape_tuition_fees`
(ism_scraper.py lines 64-123): rows with fewer than two cells or an empty
first cell are skipped; a first cell containing `REGULAR PROGRAM` (or both
`SPECIALIZED` and `PROGRAM`) opens that section; a data row needs at least
four cells, an open section and a non-empty annual fee, and is stored under
its first cell's text (the HTML-tag-stripping `re.sub` is the identity on
cell text). -/
def ismTuitionPrimaryStep (st : TuitScanState) (row : Row) : TuitScanState :=
  if row.length < 2 then st
  else
    match row with
    | [] => st
    | content :: _ =>
      if content = [] then st
      else if pyIn (pyStr "REGULAR PROGRAM") (pyUpper content) then
        { st with current := some Sect.regular }
      else if pyIn (pyStr "SPECIALIZED") (pyUpper content)
          && pyIn (pyStr "PROGRAM") (pyUpper content) then
        { st with current := some Sect.specialized }
      else if row.length < 4 ∨ st.current = none then st
      else
        let annual := (row.get? 1).getD []
        let semester1 := (row.get? 2).getD []
        let semester2 := (row.get? 3).getD []
        if annual = [] then st
        else
          let programName := pyStrip content
          match st.current with
          | some Sect.regular =>
            { st with regular :=
                pyDictSet st.regular programName ⟨annual, semester1, semester2⟩ }
          | some Sect.specialized =>
            { st with specialized :=
                pyDictSet st.specialized programName ⟨annual, semester1, semester2⟩ }
          | none => st

/-- The primary one-pass scan over the rows of the `table.table` element. -/
def ismTuitionPrimaryScan (rows : List Row) : TuitScanState :=
  rows.foldl ismTuitionPrimaryStep {}

/-- One iteration of the alternative table scan of `scrape_tuition_fees`
(ism_scraper.py lines 195-241): rows with no cells are skipped; a first cell
containing `REGULAR PROGRAM` (or both `REGULAR` and `PROGRAM`) opens the
regular section, one containing both `SPECIALIZED` and `PROGRAM` opens the
specialized section; a data row needs an open section, at least two cells, a
non-empty program name not containing `PROGRAM`, and a non-empty annual fee. -/
def ismTuitionAltStep (st : TuitScanState) (row : Row) : TuitScanState :=
  match row with
  | [] => st
  | firstCell :: _ =>
    if pyIn (pyStr "REGULAR PROGRAM") (pyUpper firstCell)
        || (pyIn (pyStr "REGULAR") (pyUpper firstCell)
            && pyIn (pyStr "PROGRAM") (pyUpper firstCell)) then
      { st with current := some Sect.regular }
    else if pyIn (pyStr "SPECIALIZED") (pyUpper firstCell)
        && pyIn (pyStr "PROGRAM") (pyUpper firstCell) then
      { st with current := some Sect.specialized }
    else if st.current = none ∨ row.length < 2 then st
    else
      let programName := pyStrip firstCell
      if programName = [] ∨ pyIn (pyStr "PROGRAM") (pyUpper programName) then st
      else
        let annual := (row.get? 1).getD []
        let semester1 := (row.get? 2).getD []
        let semester2 := (row.get? 3).getD []
        if annual = [] then st
        else
          match st.current with
          | some Sect.regular =>
            { st with regular :=
                pyDictSet st.regular programName ⟨annual, semester1, semester2⟩ }
          | some Sect.specialized =>
            { st with specialized :=
                pyDictSet st.specialized programName ⟨annual, semester1, semester2⟩ }
          | none => st

/-- The alternative scan over all tables of the page: `current_section` is
reset to `None` at the start of each table, while the attributed rows
accumulate across tables. -/
def ismTuitionAltScan (tables : List (List Row)) : TuitScanState :=
  tables.foldl (fun st tbl => (tbl.foldl ismTuitionAltStep { st with current := none })) {}

/-- A list item of the rich-text fee section, with the texts of its nested
list items (used by the `Car Stickers` special case). -/
structure IsmLi where
  text : PyStr
  subItems : List PyStr
deriving DecidableEq

/-- The pieces of `section.rich-text-block div.content` that
`scrape_tuition_fees` reads: the top-level items of its first `ul`, and the
items of the `ul` following the `Other Fees` heading (empty when the heading
or list is absent). -/
structure IsmRichContent where
  mainFeesItems : List PyStr := []
  otherFeesItems : List IsmLi := []
deriving DecidableEq

/-- Models `re.search(r'(.+?)\s*-\s*(.+)', s)` followed by `.strip()` of both
groups: split at the first `-` that has at least one character before it and
at least one after it. -/
def ismParseDashFee (s : PyStr) : Option (PyStr × PyStr) :=
  match s.findIdx? (· == '-') with
  | none => none
  | some i =>
    if 1 ≤ i ∧ i + 1 < s.length then
      some (pyStrip (s.take i), pyStrip (s.drop (i + 1)))
    else none

/-- One item of the main fees list (ism_scraper.py lines 134-140): a
`name - value` item is stored into `additional_fees`. -/
def ismMainFeeStep (td : TuitionData) (item : PyStr) : TuitionData :=
  match ismParseDashFee item with
  | some nv => { td with additional_fees := pyDictSet td.additional_fees nv.1 nv.2 }
  | none => td

/-- One `name - value` entry stored into `other_fees`. -/
def ismOtherFeeSet (td : TuitionData) (s : PyStr) : TuitionData :=
  match ismParseDashFee s with
  | some nv => { td with other_fees := pyDictSet td.other_fees nv.1 nv.2 }
  | none => td

/-- One item of the `Other Fees` list (ism_scraper.py lines 157-181): a
`Car Stickers` item whose text matches `(.+?)\s*\(` contributes its nested
sub-items instead of itself. -/
def ismOtherFeeStep (td : TuitionData) (li : IsmLi) : TuitionData :=
  if pyIn (pyStr "Car Stickers") li.text then
    if (li.text.drop 1).contains '(' then li.subItems.foldl ismOtherFeeSet td
    else td
  else ismOtherFeeSet td li.text

/-- Extraction of `additional_fees` and `other_fees` from the rich-text
content section (ism_scraper.py lines 128-181). -/
def ismContentFees (td : TuitionData) (content : Option IsmRichContent) : TuitionData :=
  match content with
  | none => td
  | some c => c.otherFeesItems.foldl ismOtherFeeStep (c.mainFeesItems.foldl ismMainFeeStep td)

/-- The parsed school-fees page, as queried by `scrape_tuition_fees`:
the `soup.select_one("table.table")` element (as its list of rows), the
`soup.find_all('table')` list, and the rich-text content section. -/
structure IsmFeesDoc where
  tableTable : Option (List Row) := none
  allTables : List (List Row) := []
  contentSection : Option IsmRichContent := none
deriving DecidableEq

/-- The body of `ISMScraper.scrape_tuition_fees` (ism_scraper.py lines
33-246): an error result when `table.table` is absent; otherwise the primary
scan of that table, then the rich-text fees, then — only when both program
sections are still empty — the alternative scan over all tables. -/
def ismScrapeTuitionFeesBody (doc : IsmFeesDoc) : PyResult TuitionData :=
  match doc.tableTable with
  | none => pyErr (pyStr "Tuition fee table not found")
  | some rows =>
    let st := ismTuitionPrimaryScan rows
    let td : TuitionData :=
      { regular_program := st.regular, specialized_program := st.specialized }
    let td := ismContentFees td doc.contentSection
    let td :=
      if td.regular_program.isEmpty && td.specialized_program.isEmpty then
        let st2 := ismTuitionAltScan doc.allTables
        { td with regular_program := st2.regular, specialized_program := st2.specialized }
      else td
    pySuccess td

/-- Method `ISMScraper.scrape_tuition_fees` with its `try/except` wrapper. -/
def ismScrapeTuitionFees : Except PyStr IsmFeesDoc → PyResult TuitionData :=
  pyTryFetch ismScrapeTuitionFeesBody

/-! ## ISM enrollment extractor (`ISMScraper.scrape_enrollment_process`) -/

/-- Insertion-ordered key list of `collections.Counter(l)`: each element of
`l` in order of first occurrence. -/
def counterKeysAux {α : Type} [DecidableEq α] : List α → List α → List α
  | [], acc => acc
  | x :: xs, acc => counterKeysAux xs (if x ∈ acc then acc else acc ++ [x])

/-- The keys of `collections.Counter(l)`, in first-occurrence order. -/
def counterKeys {α : Type} [DecidableEq α] (l : List α) : List α :=
  counterKeysAux l []

/-- The common-requirement inference of `scrape_enrollment_process`
(ism_scraper.py lines 578-589): concatenate the per-grade-level requirement
lists, count each requirement with a `Counter`, and keep the requirements
whose count is at least `len(grade_requirements) // 2`. -/
def ismCommonRequirements (lists : List (List PyStr)) : List PyStr :=
  let allRequirements := lists.flatten
  let commonThreshold := lists.length / 2
  (counterKeys allRequirements).filter
    (fun req => decide (commonThreshold ≤ allRequirements.count req))

/-- The content of one admissions-process accordion panel: its stripped text
plus the stripped texts of its `ol li, ul li` items. -/
structure IsmStepContent where
  text : PyStr
  listItems : List PyStr
deriving DecidableEq

/-- One enrollment step `{"title": ..., "description": ..., "items"?: ...}`;
the `items` key is only set when the panel contains list items. -/
structure IsmStep where
  title : PyStr
  description : PyStr
  items : Option (List PyStr) := none
deriving DecidableEq

/-- Per-grade-level data parsed by `parse_requirements_data`: downloadable
forms (name and URL) and requirement texts. -/
structure IsmGradeData where
  forms : List (PyStr × PyStr) := []
  requirements : List PyStr := []
deriving DecidableEq

/-- The `enrollment_data` dictionary of `scrape_enrollment_process`. -/
structure IsmEnrollmentData where
  overview : PyStr := []
  steps : List IsmStep := []
  requirements : List PyStr := []
  grade_requirements : List (PyStr × IsmGradeData) := []
deriving DecidableEq

/-- The parsed application-requirements page as queried by
`scrape_enrollment_process`: the `section.lead-text` overview, the
admissions-process tab titles and accordion contents, and the per-grade
requirement structure returned by `parse_requirements_data` (ism_scraper.py
lines 436-521, whose accordion traversal is abstracted as the supplied
insertion-ordered grade dictionary). -/
structure IsmEnrollDoc where
  overviewSection : Option PyStr := none
  processTabs : List PyStr := []
  processContents : List IsmStepContent := []
  gradeRequirements : List (PyStr × IsmGradeData) := []
deriving DecidableEq

/-- The body of `ISMScraper.scrape_enrollment_process` (ism_scraper.py lines
527-598): overview text, then — when the tab and content counts agree — one
step per tab in document order (no re-sorting), then the grade requirements
and, when they are non-empty, the common requirements inferred from them. -/
def ismScrapeEnrollmentBody (doc : IsmEnrollDoc) : PyResult IsmEnrollmentData :=
  let overview := doc.overviewSection.getD []
  let steps :=
    if !doc.processTabs.isEmpty && doc.processTabs.length = doc.processContents.length then
      (doc.processTabs.zip doc.processContents).map
        (fun tc =>
          { title := tc.1, description := tc.2.text,
            items := if tc.2.listItems.isEmpty then none else some tc.2.listItems })
    else []
  let gr := doc.gradeRequirements
  let requirements :=
    if !gr.isEmpty then ismCommonRequirements (gr.map (fun g => g.2.requirements))
    else []
  pySuccess
    { overview := overview, steps := steps, requirements := requirements,
      grade_requirements := gr }

/-- Method `ISMScraper.scrape_enrollment_process` with its `try/except` wrapper. -/
def ismScrapeEnrollment : Except PyStr IsmEnrollDoc → PyResult IsmEnrollmentData :=
  pyTryFetch ismScrapeEnrollmentBody

/-! ## BSM enrollment extractor (`BSMScraper.scrape_enrollment_process`) -/

/-- One application step `{"step_number": ..., "title": ..., "description": ...}`. -/
structure BsmStep where
  stepNumber : Int
  title : PyStr
  description : PyStr
deriving DecidableEq

/-- Stable insertion of a step into an already-sorted list: the new element
is placed before the first element with a greater-or-equal step number, so
elements drawn from the list head-first keep their document order on equal
keys, matching Python's stable `list.sort(key=...)`. -/
def bsmInsertStep (x : BsmStep) : List BsmStep → List BsmStep
  | [] => [x]
  | y :: ys => if y.stepNumber < x.stepNumber then y :: bsmInsertStep x ys else x :: y :: ys

/-- Stable ascending sort by `step_number`, modelling
`application_steps.sort(key=lambda x: x["step_number"])`. -/
def bsmSortSteps : List BsmStep → List BsmStep
  | [] => []
  | x :: xs => bsmInsertStep x (bsmSortSteps xs)

/-- The content `div` of one application panel: the inner `fsContent`
section's paragraph texts (absent when the inner section or its content div
is missing) and the texts of the `ul li` items of the whole content div. -/
structure BsmContentDiv where
  innerParas : Option (List PyStr) := none
  ulItems : List PyStr := []
deriving DecidableEq

/-- One `section.fsElement.fsPanel` of the how-to-apply page, as queried by
`scrape_enrollment_process`: the `h2.fsElementTitle a` text, the
`span.accordion-number` text, and the content div. -/
structure BsmPanel where
  title : Option PyStr := none
  numberSpan : Option PyStr := none
  contentDiv : Option BsmContentDiv := none
deriving DecidableEq

/-- The parsed how-to-apply page: whether `ul.fsTabsNav` is present, and the
application panels. -/
structure BsmEnrollDoc where
  hasTabsNav : Bool := true
  panels : List BsmPanel := []
deriving DecidableEq

/-- The `data` payload of the BSM enrollment result. -/
structure BsmEnrollData where
  application_process : List BsmStep := []
  requirements : List PyStr := []
  contact_email : PyStr := []
deriving DecidableEq

/-- Accumulator of the panel loop of `scrape_enrollment_process`. -/
structure BsmEnrollState where
  steps : List BsmStep := []
  reqs : List PyStr := []
  email : PyStr := []
deriving DecidableEq

/-- One iteration of the panel loop (bsm_scraper.py lines 159-222), at
enumeration index `i`: panels without a title or content div are skipped;
the step number is parsed from the accordion-number span (falling back to
`i + 1` when the span is absent or unparsable); the description joins the
non-empty inner paragraphs that do not start with `ENQUIRE TODAY`; the first
e-mail found (by the e-mail regex, supplied as `emailFind`) is kept; panels
whose title or description contains `Requirements` contribute their list
items to the requirements. -/
def bsmEnrollStep (emailFind : PyStr → List PyStr) (st : BsmEnrollState)
    (ip : Nat × BsmPanel) : BsmEnrollState :=
  match ip.2.title with
  | none => st
  | some titleRaw =>
    let stepNumber : Int :=
      match ip.2.numberSpan with
      | some t =>
        match pyParseInt (pyStrip t) with
        | some n => n
        | none => (ip.1 : Int) + 1
      | none => (ip.1 : Int) + 1
    let title := pyStrip titleRaw
    match ip.2.contentDiv with
    | none => st
    | some cd =>
      let description :=
        match cd.innerParas with
        | some paras =>
          pyJoin (pyStr " ")
            ((paras.map pyStrip).filter
              (fun p => !p.isEmpty && !isPrefixB (pyStr "ENQUIRE TODAY") p))
        | none => []
      let email :=
        if st.email.isEmpty then
          match emailFind description with
          | m :: _ => m
          | [] => st.email
        else st.email
      let reqs :=
        if pyIn (pyStr "Requirements") title || pyIn (pyStr "Requirements") description then
          st.reqs ++ ((cd.ulItems.map pyStrip).filter (fun r => !r.isEmpty))
        else st.reqs
      { steps := st.steps ++ [{ stepNumber := stepNumber, title := title,
                                description := description }],
        reqs := reqs, email := email }

/-- The full panel loop, over the enumerated panels. -/
def bsmEnrollScan (emailFind : PyStr → List PyStr) (doc : BsmEnrollDoc) : BsmEnrollState :=
  doc.panels.enum.foldl (bsmEnrollStep emailFind) {}

/-- The body of `BSMScraper.scrape_enrollment_process` (bsm_scraper.py lines
131-234): an error result when `ul.fsTabsNav` is absent; otherwise the panel
loop followed by the stable sort of the steps by parsed step number. -/
def bsmScrapeEnrollmentBody (emailFind : PyStr → List PyStr) (doc : BsmEnrollDoc) :
    PyResult BsmEnrollData :=
  if !doc.hasTabsNav then pyErr (pyStr "Enrollment process information not found")
  else
    let st := bsmEnrollScan emailFind doc
    pySuccess
      { application_process := bsmSortSteps st.steps,
        requirements := st.reqs, contact_email := st.email }

/-- Method `BSMScraper.scrape_enrollment_process` with its `try/except` wrapper. -/
def bsmScrapeEnrollment (emailFind : PyStr → List PyStr) :
    Except PyStr BsmEnrollDoc → PyResult BsmEnrollData :=
  pyTryFetch (bsmScrapeEnrollmentBody emailFind)

/-! ## ISM curriculum extractor (`ISMScraper.scrape_curriculum`) -/

/-- One curriculum entry `{"type": ..., "description": ...}`. -/
structure CurProgram where
  type : String
  description : PyStr
deriving DecidableEq

/-- State of a one-pass curriculum table scan. -/
structure CurScanState where
  current : Option Sect := none
  regular : List (PyStr × CurProgram) := []
  specialized : List (PyStr × CurProgram) := []
deriving DecidableEq

/-- Insert a program row into the section recorded by `current_section`. -/
def ismCurriculumAdd (st : CurScanState) (programName : PyStr) : CurScanState :=
  match st.current with
  | some Sect.regular =>
    { st with
      regular := pyDictSet st.regular programName ⟨"Regular Program", programName⟩ }
  | some Sect.specialized =>
    { st with
      specialized :=
        pyDictSet st.specialized programName
          ⟨"Specialized Learning Support Program", programName⟩ }
  | none => st

/-- One iteration of the primary curriculum table scan (ism_scraper.py lines
282-325): rows with no cells or an empty first cell are skipped; a first
cell containing `REGULAR PROGRAM` (or both `REGULAR` and `PROGRAM`) opens
the regular section, one containing both `SPECIALIZED` and `PROGRAM` the
specialized section; data rows need an open section and a non-empty program
name that does not contain `PROGRAM`. -/
def ismCurriculumPrimaryStep (st : CurScanState) (row : Row) : CurScanState :=
  match row with
  | [] => st
  | firstCell :: _ =>
    if firstCell = [] then st
    else if pyIn (pyStr "REGULAR PROGRAM") (pyUpper firstCell)
        || (pyIn (pyStr "REGULAR") (pyUpper firstCell)
            && pyIn (pyStr "PROGRAM") (pyUpper firstCell)) then
      { st with current := some Sect.regular }
    else if pyIn (pyStr "SPECIALIZED") (pyUpper firstCell)
        && pyIn (pyStr "PROGRAM") (pyUpper firstCell) then
      { st with current := some Sect.specialized }
    else if st.current = none then st
    else
      let programName := pyStrip firstCell
      if programName = [] ∨ pyIn (pyStr "PROGRAM") (pyUpper programName) then st
      else ismCurriculumAdd st programName

/-- One iteration of the alternative curriculum table scan (ism_scraper.py
lines 338-376); the same state machine, but without the empty-first-cell
skip of the primary scan. -/
def ismCurriculumAltStep (st : CurScanState) (row : Row) : CurScanState :=
  match row with
  | [] => st
  | firstCell :: _ =>
    if pyIn (pyStr "REGULAR PROGRAM") (pyUpper firstCell)
        || (pyIn (pyStr "REGULAR") (pyUpper firstCell)
            && pyIn (pyStr "PROGRAM") (pyUpper firstCell)) then
      { st with current := some Sect.regular }
    else if pyIn (pyStr "SPECIALIZED") (pyUpper firstCell)
        && pyIn (pyStr "PROGRAM") (pyUpper firstCell) then
      { st with current := some Sect.specialized }
    else if st.current = none then st
    else
      let programName := pyStrip firstCell
      if programName = [] ∨ pyIn (pyStr "PROGRAM") (pyUpper programName) then st
      else ismCurriculumAdd st programName

/-- One list item of the additional-programs list: the optional `strong` tag
text and the item's whole stripped text. -/
structure IsmAddLi where
  strong : Option PyStr := none
  text : PyStr := []
deriving DecidableEq

/-- Python's `re.sub(r':$', '', s)`: drop a single trailing colon. -/
def stripColonEnd (s : PyStr) : PyStr :=
  match s.reverse with
  | ':' :: rest => rest.reverse
  | _ => s

/-- The `curriculum_data` dictionary of `scrape_curriculum`. -/
structure CurriculumData where
  regular_program : List (PyStr × CurProgram) := []
  specialized_program : List (PyStr × CurProgram) := []
  additional_programs : List (PyStr × CurProgram) := []
deriving DecidableEq

/-- The parsed school-fees page as queried by `scrape_curriculum`: the
`table.table` rows, all tables, and the list following the `Additional
Program` heading of the rich-text section (absent when the heading or its
list is missing). -/
structure IsmCurDoc where
  tableTable : Option (List Row) := none
  allTables : List (List Row) := []
  additionalProgramsUl : Option (List IsmAddLi) := none
deriving DecidableEq

/-- Whitespace-collapse and strip every description, modelling the
post-processing loop of `scrape_curriculum` (ism_scraper.py lines 417-422). -/
def ismCurriculumPost (d : List (PyStr × CurProgram)) : List (PyStr × CurProgram) :=
  d.map (fun kp => (kp.1, { kp.2 with description := pyStrip (pyCollapseWS kp.2.description) }))

/-- The additional-programs extraction (ism_scraper.py lines 391-414): the
program name is the `strong` text when present, else the first line of the
item text with a trailing colon removed; empty names are skipped. -/
def ismAdditionalPrograms (lis : List IsmAddLi) : List (PyStr × CurProgram) :=
  lis.foldl
    (fun acc li =>
      let programName :=
        match li.strong with
        | some s => pyStrip s
        | none => pyStrip (stripColonEnd (pyStrip (li.text.takeWhile (· ≠ '\n'))))
      if programName ≠ [] then
        pyDictSet acc programName ⟨"Additional Support Program", programName⟩
      else acc) []

/-- The body of `ISMScraper.scrape_curriculum` (ism_scraper.py lines
259-427): the primary scan of `table.table` when present, the alternative
scan over all tables when both sections are still empty, the
additional-programs list, and the description post-processing. -/
def ismScrapeCurriculumBody (doc : IsmCurDoc) : PyResult CurriculumData :=
  let st :=
    match doc.tableTable with
    | some rows => rows.foldl ismCurriculumPrimaryStep {}
    | none => {}
  let cd : CurriculumData :=
    { regular_program := st.regular, specialized_program := st.specialized }
  let cd :=
    if cd.regular_program.isEmpty && cd.specialized_program.isEmpty then
      let st2 := doc.allTables.foldl
        (fun st tbl => tbl.foldl ismCurriculumAltStep { st with current := none })
        ({} : CurScanState)
      { cd with regular_program := st2.regular, specialized_program := st2.specialized }
    else cd
  let cd :=
    match doc.additionalProgramsUl with
    | none => cd
    | some lis => { cd with additional_programs := ismAdditionalPrograms lis }
  pySuccess
    { regular_program := ismCurriculumPost cd.regular_program,
      specialized_program := ismCurriculumPost cd.specialized_program,
      additional_programs := ismCurriculumPost cd.additional_programs }

/-- Method `ISMScraper.scrape_curriculum` with its `try/except` wrapper. -/
def ismScrapeCurriculum : Except PyStr IsmCurDoc → PyResult CurriculumData :=
  pyTryFetch ismScrapeCurriculumBody

/-! ## Remaining category methods (status structure) -/

/-- The contact data `{"email": ..., "phone": ..., "contact_person": ...}`. -/
structure ContactData where
  email : PyStr := []
  phone : PyStr := []
  contact_person : PyStr := []
deriving DecidableEq

/-- The body of `ISMScraper.scrape_scholarships` (ism_scraper.py lines
611-897): the page traversal only assembles the `scholarship_data` payload —
it has no early return and no non-success return — so the body is
`{"status": "success", "data": ...}` with the assembled payload, which is
abstracted here as the environment-supplied document value itself. -/
def ismScrapeScholarships {α : Type} : Except PyStr α → PyResult α :=
  pyTryFetch pySuccess

/-- The body of `ISMScraper.scrape_contact_info` (ism_scraper.py lines
910-1088): like the scholarship method, the body only assembles
`contact_data` and its sole return is a success result, so it is modelled as
success on the assembled payload. -/
def ismScrapeContactInfo {α : Type} : Except PyStr α → PyResult α :=
  pyTryFetch pySuccess

/-- Method `BSMScraper.scrape_tuition_fees` (bsm_scraper.py lines 29-36): a
constant skipped result. -/
def bsmScrapeTuitionFees : PyResult Unit :=
  { status := "skipped",
    message := some (pyStr "Tuition fees scraping is skipped for this school because it is not available on the website.") }

/-- Method `BSMScraper.scrape_scholarships` (bsm_scraper.py lines 243-251): a
constant not-implemented result. -/
def bsmScrapeScholarships : PyResult Unit :=
  { status := "not_implemented",
    message := some (pyStr "No relevant scholarships information found") }

/-- The body of `BSMScraper.scrape_curriculum` (bsm_scraper.py lines 42-125):
an error result when the accordion container is absent, else a success
result whose panel-by-panel payload assembly is abstracted as the
environment-supplied value. -/
def bsmScrapeCurriculumBody {α : Type} : Option α → PyResult α
  | none => pyErr (pyStr "Curriculum information not found")
  | some d => pySuccess d

/-- Method `BSMScraper.scrape_curriculum` with its `try/except` wrapper. -/
def bsmScrapeCurriculum {α : Type} : Except PyStr (Option α) → PyResult α :=
  pyTryFetch bsmScrapeCurriculumBody

/-- The body of `BSMScraper.scrape_contact_info` (bsm_scraper.py lines
256-302): the body only assembles the contact payload and its sole return is
a success result. -/
def bsmScrapeContactInfo {α : Type} : Except PyStr α → PyResult α :=
  pyTryFetch pySuccess

/-! ## Aggregate scrape methods and rendering-engine teardown -/

/-- A value of the aggregate output record: either the raw success payload
(`result["data"]`) or the full status-wrapper object. -/
inductive FieldVal (α : Type) where
  | payload (d : Option α)
  | wrapper (r : PyResult α)
deriving DecidableEq

/-- The per-field unwrapping of `ISMScraper.scrape` (ism_scraper.py lines
1115-1119): `result["data"] if result["status"] == "success" else result`. -/
def fieldOf {α : Type} (r : PyResult α) : FieldVal α :=
  if r.status = "success" then .payload r.data else .wrapper r

/-- The aggregate output record of `ISMScraper.scrape`, with the scholarship
and contact payload types abstract. -/
structure IsmRecord (σ γ : Type) where
  name : String
  tuition_fees : FieldVal TuitionData
  curriculum : FieldVal CurriculumData
  enrollment_process : FieldVal IsmEnrollmentData
  scholarships : FieldVal σ
  contact_info : FieldVal γ
deriving DecidableEq

/-- The `results` dictionary of `ISMScraper.scrape` (ism_scraper.py lines
1113-1120). -/
def ismBuildRecord {σ γ : Type} (t : PyResult TuitionData) (c : PyResult CurriculumData)
    (e : PyResult IsmEnrollmentData) (s : PyResult σ) (ci : PyResult γ) : IsmRecord σ γ :=
  { name := "International School Manila",
    tuition_fees := fieldOf t, curriculum := fieldOf c,
    enrollment_process := fieldOf e, scholarships := fieldOf s,
    contact_info := fieldOf ci }

/-- Modelled from the spec: the rendering-engine teardown routine
`close_playwright` lives in `services/playwright_manager.py`, which is not
under src/; per spec sections 3 and 5 it closes the lazily-started browser
engine at the end of an extractor's aggregate run. It is modelled as an
invocation-counter increment (a non-raising state update). -/
def closePlaywright (n : Nat) : Nat := n + 1

/-- The `try/except` structure shared by `ISMScraper.scrape` (ism_scraper.py
lines 1101-1130) and `BSMScraper.scrape` (bsm_scraper.py lines 308-332): on
normal completion of the body, teardown runs and the record is returned; on
an exception from the body, teardown runs and the bare `raise` re-raises the
original exception. The second component counts teardown invocations. -/
def scrapeAggregate {ρ : Type} (body : Except PyStr ρ) (n : Nat) : Except PyStr ρ × Nat :=
  match body with
  | .ok r => (.ok r, closePlaywright n)
  | .error e => (.error e, closePlaywright n)

/-- The full run of `ISMScraper.scrape`: the five category methods (each
total thanks to its own `try/except`) produce the record inside the `try`
body, then the aggregate wrapper tears down the rendering engine. -/
def ismScrapeRun {σ γ : Type} (f1 : Except PyStr IsmFeesDoc) (f2 : Except PyStr IsmCurDoc)
    (f3 : Except PyStr IsmEnrollDoc) (f4 : Except PyStr σ) (f5 : Except PyStr γ)
    (n : Nat) : Except PyStr (IsmRecord σ γ) × Nat :=
  scrapeAggregate
    (.ok (ismBuildRecord (ismScrapeTuitionFees f1) (ismScrapeCurriculum f2)
      (ismScrapeEnrollment f3) (ismScrapeScholarships f4) (ismScrapeContactInfo f5))) n

/-- The aggregate output record of `BSMScraper.scrape` (bsm_scraper.py lines
315-322): unlike ISM, every field holds the full status-wrapper object. -/
structure BsmRecord (κ γ : Type) where
  name : String
  tuition_fees : PyResult Unit
  curriculum : PyResult κ
  enrollment_process : PyResult BsmEnrollData
  scholarships : PyResult Unit
  contact_info : PyResult γ
deriving DecidableEq

/-- The full run of `BSMScraper.scrape`. -/
def bsmScrapeRun {κ γ : Type} (emailFind : PyStr → List PyStr)
    (fc : Except PyStr (Option κ)) (fe : Except PyStr BsmEnrollDoc)
    (fci : Except PyStr γ) (n : Nat) : Except PyStr (BsmRecord κ γ) × Nat :=
  scrapeAggregate
    (.ok { name := "British School Manila",
           tuition_fees := bsmScrapeTuitionFees,
           curriculum := bsmScrapeCurriculum fc,
           enrollment_process := bsmScrapeEnrollment emailFind fe,
           scholarships := bsmScrapeScholarships,
           contact_info := bsmScrapeContactInfo fci }) n

/-- The `run_scraper` helper of app.py (lines 53-61): the scraped record on
normal completion, `None` when the aggregate scrape raised. -/
def runScraper {ρ : Type} : Except PyStr ρ → Option ρ
  | .ok r => some r
  | .error _ => none

/-! ## Extractor registry and dispatcher (`run_scrapers`, app.py lines 64-124) -/

/-- The registered site extractors (one per scraper module under
services/schools). -/
inductive ScraperId
  | ism
  | bsm
  | cism
  | faith
  | ris
  | ssm
  | vcis
deriving DecidableEq

/-- Which of the four matching rules of `run_scrapers` selected the
extractor. -/
inductive MatchRule
  | directName
  | initialsMatch
  | keywordMatch
  | defaultFallback
deriving DecidableEq

/-- The per-school extractor dispatch of `run_scrapers` (app.py lines
74-122), as a pure function of the insertion-ordered registry and the school
display name. The rules are tried in order, first registry entry wins:
lowercase registry key as a substring of the space-stripped lowercase name;
key equal (case-insensitively) to the initials of the words of length above
one; any word of length above two appearing in the lowercase key; and the
default `ISMScraper` fallback. -/
def runScrapersDispatch (registry : List (String × ScraperId)) (school : String) :
    ScraperId × MatchRule :=
  let schoolNoSpaces := school.toList.filter (· ≠ ' ')
  match registry.find? (fun ks => pyIn (pyLower ks.1.toList) (pyLower schoolNoSpaces)) with
  | some ks => (ks.2, .directName)
  | none =>
    let words := pySplitWS school.toList
    let initials := (words.filter (fun w => 1 < w.length)).map (fun w => w.headD ' ')
    match registry.find? (fun ks => pyLower ks.1.toList = pyLower initials) with
    | some ks => (ks.2, .initialsMatch)
    | none =>
      let schoolParts := pySplitWS (pyLower school.toList)
      match registry.find?
          (fun ks => schoolParts.any
            (fun part => 2 < part.length && pyIn part (pyLower ks.1.toList))) with
      | some ks => (ks.2, .keywordMatch)
      | none => (.ism, .defaultFallback)

/-! ## Generic fallback extractor (`SchoolScraper`, scraper.py) -/

/-- The parsed page as queried by `SchoolScraper._extract_content`: the
paragraph-like texts of the main content container when `_find_main_content`
finds one, the return values of the per-field helper extractors
(`_extract_fees`, `_extract_program`, ...), and the texts of all `p`
elements for the generic branch. -/
structure SoupView where
  mainParas : Option (List PyStr) := none
  fees : PyStr := []
  program : PyStr := []
  enrollment : PyStr := []
  events : PyStr := []
  scholarships : PyStr := []
  contact : PyStr := []
  allParas : List PyStr := []
deriving DecidableEq

/-- Method `SchoolScraper._extract_content` (scraper.py lines 173-220): pick the
main-content paragraphs when available, else dispatch on the field name to
the per-field helper (or join all paragraphs), then collapse whitespace,
collapse newlines, and return the first 5000 characters — or the fixed
placeholder when the content is empty. -/
def extractContent (v : SoupView) (fieldName : PyStr) : PyStr :=
  let content :=
    match v.mainParas with
    | none =>
      if fieldName = pyStr "school_fee" then v.fees
      else if fieldName = pyStr "program" then v.program
      else if pyIn (pyStr "Enrollment") fieldName then v.enrollment
      else if pyIn (pyStr "Events") fieldName then v.events
      else if pyIn (pyStr "Discounts") fieldName then v.scholarships
      else if pyIn (pyStr "Contact") fieldName then v.contact
      else pyJoin (pyStr "\n") (v.allParas.filter (· ≠ []))
    | some paras => pyJoin (pyStr "\n") (paras.filter (· ≠ []))
  let content := pyStrip (pyCollapseWS content)
  let content := pyStrip (pyCollapseNL content)
  if content ≠ [] then content.take 5000 else pyStr "No structured data found"

/-- A per-category catalog entry: Python `school.get(field_name, [])` can be
absent, a single URL string, or a list of URLs. -/
inductive PyField
  | noField
  | strField (s : PyStr)
  | listField (l : List PyStr)
deriving DecidableEq

/-- Python falsiness of a catalog field (`if not field_data`). -/
def pyFieldFalsy : PyField → Bool
  | .noField => true
  | .strField s => s.isEmpty
  | .listField l => l.isEmpty

/-- One iteration of the URL loop of `SchoolScraper._scrape_field` (scraper.py
lines 147-165): empty URLs are skipped; a fetch-or-parse exception appends
an inline error note; otherwise `_extract_content` runs on the parsed page
and a non-empty content string appends a `From {url}:` chunk. -/
def scrapeFieldStep (fieldName : PyStr) (fetch : PyStr → Except PyStr SoupView)
    (acc : List PyStr) (url : PyStr) : List PyStr :=
  if url.isEmpty then acc
  else
    match fetch url with
    | .ok v =>
      let content := extractContent v fieldName
      if !content.isEmpty then acc ++ [pyStr "From " ++ url ++ pyStr ":\n" ++ content]
      else acc
    | .error e => acc ++ [pyStr "Error scraping " ++ url ++ pyStr ": " ++ e]

/-- Method `SchoolScraper._scrape_field` (scraper.py lines 124-171): the sentinel
`"No data available"` for a falsy catalog field; otherwise the URL loop over
the single URL or URL list, the same sentinel when no chunk was collected,
and the separator-joined chunks otherwise. -/
def scrapeField (field : PyField) (fieldName : PyStr)
    (fetch : PyStr → Except PyStr SoupView) : PyStr :=
  if pyFieldFalsy field then pyStr "No data available"
  else
    let urls :=
      match field with
      | .strField s => [s]
      | .listField l => l
      | .noField => []
    let results := urls.foldl (scrapeFieldStep fieldName fetch) []
    if results.isEmpty then pyStr "No data available"
    else pyJoin (pyStr "\n\n---\n\n") results

/-! ## Specification helpers and concrete fixtures -/

/-- Specification helper: which section header, if any, a row opens in the
alternative tuition table scan (first-cell keyword matching of
ism_scraper.py lines 203-210). -/
def ismAltRowHeader (row : Row) : Option Sect :=
  match row with
  | [] => none
  | firstCell :: _ =>
    if pyIn (pyStr "REGULAR PROGRAM") (pyUpper firstCell)
        || (pyIn (pyStr "REGULAR") (pyUpper firstCell)
            && pyIn (pyStr "PROGRAM") (pyUpper firstCell)) then
      some Sect.regular
    else if pyIn (pyStr "SPECIALIZED") (pyUpper firstCell)
        && pyIn (pyStr "PROGRAM") (pyUpper firstCell) then
      some Sect.specialized
    else none

/-- Specification helper: which section header, if any, a row opens in the
primary tuition table scan (ism_scraper.py lines 66-88: the header keyword
test is only reached for rows with at least two cells and a non-empty first
cell). -/
def ismPrimaryRowHeader (row : Row) : Option Sect :=
  match row with
  | [] => none
  | content :: _ =>
    if row.length < 2 then none
    else if content = [] then none
    else if pyIn (pyStr "REGULAR PROGRAM") (pyUpper content) then some Sect.regular
    else if pyIn (pyStr "SPECIALIZED") (pyUpper content)
        && pyIn (pyStr "PROGRAM") (pyUpper content) then
      some Sect.specialized
    else none

/-- The four-row tuition table of the section-state-machine test scenario. -/
def exTableRows : List Row :=
  [[pyStr "REGULAR PROGRAM"],
   [pyStr "Grade 1", pyStr "100", pyStr "50", pyStr "50"],
   [pyStr "SPECIALIZED PROGRAM"],
   [pyStr "Support A", pyStr "80", pyStr "40", pyStr "40"]]

/-- A school-fees page whose `table.table` is the four-row test table. -/
def exFeesDoc : IsmFeesDoc :=
  { tableTable := some exTableRows, allTables := [exTableRows] }

/-- A school-fees page with tables present but none matching `table.table`. -/
def exNoPrimaryDoc : IsmFeesDoc :=
  { tableTable := none, allTables := [exTableRows] }

/-- An application-requirements page whose step tabs appear in document
order Step 3, Step 1, Step 2. -/
def exIsmEnrollDoc : IsmEnrollDoc :=
  { processTabs := [pyStr "Step 3", pyStr "Step 1", pyStr "Step 2"],
    processContents :=
      [⟨pyStr "desc 3", []⟩, ⟨pyStr "desc 1", []⟩, ⟨pyStr "desc 2", []⟩] }

/-- A how-to-apply page whose panels appear in document order with step
numbers 3, 1, 2. -/
def exBsmEnrollDoc : BsmEnrollDoc :=
  { panels :=
      [{ title := some (pyStr "Step 3"), numberSpan := some (pyStr "3"),
         contentDiv := some { innerParas := some [pyStr "desc 3"] } },
       { title := some (pyStr "Step 1"), numberSpan := some (pyStr "1"),
         contentDiv := some { innerParas := some [pyStr "desc 1"] } },
       { title := some (pyStr "Step 2"), numberSpan := some (pyStr "2"),
         contentDiv := some { innerParas := some [pyStr "desc 2"] } }] }

/-- Four grade-level requirement lists: `Birth Certificate` appears in
three of them and `Medical Form` in one. -/
def exGradeLists : List (List PyStr) :=
  [[pyStr "Birth Certificate", pyStr "Medical Form"],
   [pyStr "Birth Certificate"],
   [pyStr "Birth Certificate"],
   [pyStr "Transcript"]]

/-- An application-requirements page carrying the four grade-level lists. -/
def exGradeDoc : IsmEnrollDoc :=
  { gradeRequirements :=
      [(pyStr "Grade 1", { requirements := [pyStr "Birth Certificate", pyStr "Medical Form"] }),
       (pyStr "Grade 2", { requirements := [pyStr "Birth Certificate"] }),
       (pyStr "Grade 3", { requirements := [pyStr "Birth Certificate"] }),
       (pyStr "Grade 4", { requirements := [pyStr "Transcript"] })] }

/-- A fetch oracle whose page parses to an everywhere-empty document. -/
def exEmptyFetch : PyStr → Except PyStr SoupView := fun _ => .ok {}

/-! ## Helper lemmas -/

lemma mem_counterKeysAux {α : Type} [DecidableEq α] (l : List α) :
    ∀ (acc : List α) (r : α), r ∈ counterKeysAux l acc ↔ r ∈ acc ∨ r ∈ l := by
  induction l with
  | nil => intro acc r; simp [counterKeysAux]
  | cons x xs ih =>
    intro acc r
    by_cases hx : x ∈ acc
    · rw [counterKeysAux, if_pos hx, ih]
      constructor
      · rintro (h | h)
        · exact Or.inl h
        · exact Or.inr (List.mem_cons_of_mem x h)
      · rintro (h | h)
        · exact Or.inl h
        · rcases List.mem_cons.mp h with h | h
          · exact Or.inl (h ▸ hx)
          · exact Or.inr h
    · rw [counterKeysAux, if_neg hx, ih]
      simp only [List.mem_append, List.mem_singleton, List.mem_cons]
      tauto

lemma mem_counterKeys {α : Type} [DecidableEq α] (l : List α) (r : α) :
    r ∈ counterKeys l ↔ r ∈ l := by
  simp [counterKeys, mem_counterKeysAux]

lemma pyJoin_ne_nil (sep : PyStr) (x : PyStr) (xs : List PyStr) (hx : x ≠ []) :
    pyJoin sep (x :: xs) ≠ [] := by
  cases xs with
  | nil => simpa [pyJoin] using hx
  | cons y ys => simp [pyJoin, hx]

lemma bsmInsertStep_perm (x : BsmStep) (l : List BsmStep) :
    (bsmInsertStep x l).Perm (x :: l) := by
  induction l with
  | nil => simp [bsmInsertStep]
  | cons y ys ih =>
    rw [bsmInsertStep]
    by_cases h : y.stepNumber < x.stepNumber
    · rw [if_pos h]
      exact (ih.cons y).trans (List.Perm.swap x y ys)
    · rw [if_neg h]

lemma bsmSortSteps_perm (l : List BsmStep) : (bsmSortSteps l).Perm l := by
  induction l with
  | nil => simp [bsmSortSteps]
  | cons x xs ih =>
    rw [bsmSortSteps]
    exact (bsmInsertStep_perm x (bsmSortSteps xs)).trans (ih.cons x)

lemma bsmInsertStep_sorted (x : BsmStep) (l : List BsmStep)
    (h : l.Pairwise (fun a b => a.stepNumber ≤ b.stepNumber)) :
    (bsmInsertStep x l).Pairwise (fun a b => a.stepNumber ≤ b.stepNumber) := by
  induction l with
  | nil => simp [bsmInsertStep]
  | cons y ys ih =>
    rw [bsmInsertStep]
    rcases List.pairwise_cons.mp h with ⟨hy, hys⟩
    by_cases hlt : y.stepNumber < x.stepNumber
    · rw [if_pos hlt]
      refine List.pairwise_cons.mpr ⟨?_, ih hys⟩
      intro z hz
      rcases List.mem_cons.mp ((bsmInsertStep_perm x ys).mem_iff.mp hz) with hz | hz
      · exact hz ▸ le_of_lt hlt
      · exact hy z hz
    · rw [if_neg hlt]
      refine List.pairwise_cons.mpr ⟨?_, h⟩
      intro z hz
      rcases List.mem_cons.mp hz with hz | hz
      · exact hz ▸ le_of_not_lt hlt
      · exact le_trans (le_of_not_lt hlt) (hy z hz)

lemma bsmSortSteps_sorted (l : List BsmStep) :
    (bsmSortSteps l).Pairwise (fun a b => a.stepNumber ≤ b.stepNumber) := by
  induction l with
  | nil => simp [bsmSortSteps]
  | cons x xs ih => exact bsmInsertStep_sorted x (bsmSortSteps xs) ih

lemma ismMainFeeStep_sections (td : TuitionData) (item : PyStr) :
    (ismMainFeeStep td item).regular_program = td.regular_program ∧
      (ismMainFeeStep td item).specialized_program = td.specialized_program := by
  rw [ismMainFeeStep]
  cases ismParseDashFee item <;> simp

lemma ismOtherFeeSet_sections (td : TuitionData) (s : PyStr) :
    (ismOtherFeeSet td s).regular_program = td.regular_program ∧
      (ismOtherFeeSet td s).specialized_program = td.specialized_program := by
  rw [ismOtherFeeSet]
  cases ismParseDashFee s <;> simp

lemma foldl_ismOtherFeeSet_sections (subs : List PyStr) :
    ∀ td : TuitionData, (subs.foldl ismOtherFeeSet td).regular_program = td.regular_program ∧
      (subs.foldl ismOtherFeeSet td).specialized_program = td.specialized_program := by
  induction subs with
  | nil => intro td; simp
  | cons s rest ih =>
    intro td
    rw [List.foldl_cons]
    rcases ih (ismOtherFeeSet td s) with ⟨h1, h2⟩
    rcases ismOtherFeeSet_sections td s with ⟨h3, h4⟩
    exact ⟨h1.trans h3, h2.trans h4⟩

lemma ismOtherFeeStep_sections (td : TuitionData) (li : IsmLi) :
    (ismOtherFeeStep td li).regular_program = td.regular_program ∧
      (ismOtherFeeStep td li).specialized_program = td.specialized_program := by
  rw [ismOtherFeeStep]
  split_ifs
  · exact foldl_ismOtherFeeSet_sections li.subItems td
  · exact ⟨rfl, rfl⟩
  · exact ismOtherFeeSet_sections td li.text

lemma ismContentFees_sections (td : TuitionData) (content : Option IsmRichContent) :
    (ismContentFees td content).regular_program = td.regular_program ∧
      (ismContentFees td content).specialized_program = td.specialized_program := by
  cases content with
  | none => simp [ismContentFees]
  | some c =>
    rw [ismContentFees]
    have hmain : ∀ (items : List PyStr) (td : TuitionData),
        ((items.foldl ismMainFeeStep td).regular_program = td.regular_program ∧
          (items.foldl ismMainFeeStep td).specialized_program = td.specialized_program) := by
      intro items
      induction items with
      | nil => intro td; simp
      | cons i rest ih =>
        intro td
        rw [List.foldl_cons]
        rcases ih (ismMainFeeStep td i) with ⟨h1, h2⟩
        rcases ismMainFeeStep_sections td i with ⟨h3, h4⟩
        exact ⟨h1.trans h3, h2.trans h4⟩
    have hother : ∀ (items : List IsmLi) (td : TuitionData),
        ((items.foldl ismOtherFeeStep td).regular_program = td.regular_program ∧
          (items.foldl ismOtherFeeStep td).specialized_program = td.specialized_program) := by
      intro items
      induction items with
      | nil => intro td; simp
      | cons i rest ih =>
        intro td
        rw [List.foldl_cons]
        rcases ih (ismOtherFeeStep td i) with ⟨h1, h2⟩
        rcases ismOtherFeeStep_sections td i with ⟨h3, h4⟩
        exact ⟨h1.trans h3, h2.trans h4⟩
    rcases hother c.otherFeesItems (c.mainFeesItems.foldl ismMainFeeStep td) with ⟨h1, h2⟩
    rcases hmain c.mainFeesItems td with ⟨h3, h4⟩
    exact ⟨h1.trans h3, h2.trans h4⟩

lemma take_placeholder_ne_nil (c : PyStr) :
    (if c ≠ [] then c.take 5000 else pyStr "No structured data found") ≠ [] := by
  split_ifs with h
  · cases c with
    | nil => exact absurd rfl h
    | cons a as => simp [List.take]
  · simp [pyStr]

lemma take_placeholder_length (c : PyStr) :
    (if c ≠ [] then c.take 5000 else pyStr "No structured data found").length ≤ 5000 := by
  split_ifs with h
  · simp [List.length_take]
  · simp [pyStr]

lemma extractContent_ne_nil (v : SoupView) (fieldName : PyStr) :
    extractContent v fieldName ≠ [] := by
  rw [extractContent]
  exact take_placeholder_ne_nil _

lemma scrapeFieldStep_ne_nil (fieldName : PyStr) (fetch : PyStr → Except PyStr SoupView)
    (acc : List PyStr) (url : PyStr) (hacc : ∀ r ∈ acc, r ≠ []) :
    ∀ r ∈ scrapeFieldStep fieldName fetch acc url, r ≠ [] := by
  intro r hr
  rw [scrapeFieldStep] at hr
  by_cases hurl : url.isEmpty
  · rw [if_pos hurl] at hr
    exact hacc r hr
  · rw [if_neg hurl] at hr
    cases hfetch : fetch url with
    | ok v =>
      rw [hfetch] at hr
      by_cases hc : (extractContent v fieldName).isEmpty
      · simp only [hc, Bool.not_true, Bool.false_eq_true, if_false] at hr
        exact hacc r hr
      · simp only [hc, Bool.not_false, if_true, List.mem_append,
          List.mem_singleton] at hr
        rcases hr with h | rfl
        · exact hacc r h
        · simp [pyStr]
    | error e =>
      rw [hfetch] at hr
      rcases List.mem_append.mp hr with h | h
      · exact hacc r h
      · rcases List.mem_singleton.mp h with rfl
        simp [pyStr]

lemma scrapeField_fold_ne_nil (fieldName : PyStr) (fetch : PyStr → Except PyStr SoupView)
    (urls : List PyStr) :
    ∀ acc : List PyStr, (∀ r ∈ acc, r ≠ []) →
      ∀ r ∈ urls.foldl (scrapeFieldStep fieldName fetch) acc, r ≠ [] := by
  induction urls with
  | nil => intro acc hacc; simpa using hacc
  | cons u rest ih =>
    intro acc hacc
    rw [List.foldl_cons]
    exact ih _ (scrapeFieldStep_ne_nil fieldName fetch acc u hacc)

lemma ismTuitionAltStep_current (st : TuitScanState) (row : Row) :
    (ismTuitionAltStep st row).current =
      match ismAltRowHeader row with
      | some s => some s
      | none => st.current := by
  cases row with
  | nil => rfl
  | cons c rest =>
    simp only [ismTuitionAltStep, ismAltRowHeader]
    rcases hc : st.current with _ | s
    · split_ifs <;> simp [hc]
    · cases s <;> split_ifs <;> simp [hc]

lemma ismTuitionAltStep_inert (st : TuitScanState) (row : Row) (h1 : st.current = none)
    (h2 : ismAltRowHeader row = none) : ismTuitionAltStep st row = st := by
  cases row with
  | nil => rfl
  | cons c rest =>
    rw [ismAltRowHeader] at h2
    simp only [ismTuitionAltStep]
    split_ifs at h2 ⊢ <;> simp_all

lemma ismTuitionAltStep_regular (st : TuitScanState) (row : Row) :
    (ismTuitionAltStep st row).regular ≠ st.regular →
      st.current = some Sect.regular ∧
        (ismTuitionAltStep st row).specialized = st.specialized := by
  cases row with
  | nil => intro h; exact absurd rfl h
  | cons c rest =>
    simp only [ismTuitionAltStep]
    rcases hc : st.current with _ | s
    · simp only [hc]
      split_ifs <;> intro h <;> exact absurd rfl h
    · cases s
      · simp only [hc]
        split_ifs <;> intro h <;>
          first
          | exact absurd rfl h
          | exact ⟨trivial, rfl⟩
      · simp only [hc]
        split_ifs <;> intro h <;> exact absurd rfl h

lemma ismTuitionAltStep_specialized (st : TuitScanState) (row : Row) :
    (ismTuitionAltStep st row).specialized ≠ st.specialized →
      st.current = some Sect.specialized ∧
        (ismTuitionAltStep st row).regular = st.regular := by
  cases row with
  | nil => intro h; exact absurd rfl h
  | cons c rest =>
    simp only [ismTuitionAltStep]
    rcases hc : st.current with _ | s
    · simp only [hc]
      split_ifs <;> intro h <;> exact absurd rfl h
    · cases s
      · simp only [hc]
        split_ifs <;> intro h <;> exact absurd rfl h
      · simp only [hc]
        split_ifs <;> intro h <;>
          first
          | exact absurd rfl h
          | exact ⟨trivial, rfl⟩

lemma ismTuitionPrimaryStep_current (st : TuitScanState) (row : Row) :
    (ismTuitionPrimaryStep st row).current =
      match ismPrimaryRowHeader row with
      | some s => some s
      | none => st.current := by
  cases row with
  | nil => rfl
  | cons c rest =>
    simp only [ismTuitionPrimaryStep, ismPrimaryRowHeader]
    rcases hc : st.current with _ | s
    · split_ifs <;> simp [hc]
    · cases s <;> split_ifs <;> simp [hc]

lemma ismTuitionPrimaryStep_inert (st : TuitScanState) (row : Row) (h1 : st.current = none)
    (h2 : ismPrimaryRowHeader row = none) : ismTuitionPrimaryStep st row = st := by
  cases row with
  | nil => rfl
  | cons c rest =>
    rw [ismPrimaryRowHeader] at h2
    simp only [ismTuitionPrimaryStep]
    split_ifs at h2 ⊢ <;> simp_all

lemma ismTuitionPrimaryStep_regular (st : TuitScanState) (row : Row) :
    (ismTuitionPrimaryStep st row).regular ≠ st.regular →
      st.current = some Sect.regular ∧
        (ismTuitionPrimaryStep st row).specialized = st.specialized := by
  cases row with
  | nil => intro h; exact absurd rfl h
  | cons c rest =>
    simp only [ismTuitionPrimaryStep]
    rcases hc : st.current with _ | s
    · simp only [hc]
      split_ifs <;> intro h <;> exact absurd rfl h
    · cases s
      · simp only [hc]
        split_ifs <;> intro h <;>
          first
          | exact absurd rfl h
          | exact ⟨trivial, rfl⟩
      · simp only [hc]
        split_ifs <;> intro h <;> exact absurd rfl h

lemma ismTuitionPrimaryStep_specialized (st : TuitScanState) (row : Row) :
    (ismTuitionPrimaryStep st row).specialized ≠ st.specialized →
      st.current = some Sect.specialized ∧
        (ismTuitionPrimaryStep st row).regular = st.regular := by
  cases row with
  | nil => intro h; exact absurd rfl h
  | cons c rest =>
    simp only [ismTuitionPrimaryStep]
    rcases hc : st.current with _ | s
    · simp only [hc]
      split_ifs <;> intro h <;> exact absurd rfl h
    · cases s
      · simp only [hc]
        split_ifs <;> intro h <;> exact absurd rfl h
      · simp only [hc]
        split_ifs <;> intro h <;>
          first
          | exact absurd rfl h
          | exact ⟨trivial, rfl⟩

lemma scrapeField_fold_empty (fieldName : PyStr) (fetch : PyStr → Except PyStr SoupView) :
    ∀ (urls : List PyStr) (acc : List PyStr), (∀ u ∈ urls, u = []) →
      urls.foldl (scrapeFieldStep fieldName fetch) acc = acc := by
  intro urls
  induction urls with
  | nil => intro acc _; rfl
  | cons u rest ih =>
    intro acc h
    rw [List.foldl_cons]
    have hu : u = [] := h u (List.mem_cons_self u rest)
    rw [show scrapeFieldStep fieldName fetch acc u = acc by
      rw [scrapeFieldStep, if_pos (by simp [hu])]]
    exact ih acc (fun x hx => h x (List.mem_cons_of_mem u hx))

lemma scrapeField_join_ne_nil (fieldName : PyStr) (fetch : PyStr → Except PyStr SoupView)
    (urls : List PyStr) :
    (if (urls.foldl (scrapeFieldStep fieldName fetch) []).isEmpty = true
      then pyStr "No data available"
      else pyJoin (pyStr "\n\n---\n\n") (urls.foldl (scrapeFieldStep fieldName fetch) [])) ≠
      [] := by
  cases hres : urls.foldl (scrapeFieldStep fieldName fetch) [] with
  | nil => simp [pyStr]
  | cons x xs =>
    have hx : x ≠ [] := by
      refine scrapeField_fold_ne_nil fieldName fetch urls [] (by simp) x ?_
      rw [hres]
      exact List.mem_cons_self x xs
    simp only [List.isEmpty_cons, Bool.false_eq_true, if_false]
    exact pyJoin_ne_nil _ x xs hx

lemma mem_six_success : ("success" : String) ∈ sixStatuses := by decide

lemma mem_six_error : ("error" : String) ∈ sixStatuses := by decide

/-! ## Claim theorems -/

/-- C9: for every parsed document and every field name, the generic fallback
extractor's content extraction (`SchoolScraper._extract_content`) returns a
string of at most 5000 characters: the concatenated, whitespace-collapsed
text of matched nodes is truncated to the fixed 5000-character maximum, and
the short fixed placeholder is returned when nothing is found, so the output
length never exceeds 5000. -/
theorem c9_extract_content_bounded (v : SoupView) (fieldName : PyStr) :
    (extractContent v fieldName).length ≤ 5000 := by
  rw [extractContent]
  exact take_placeholder_length _

/-- C3: in the ISM enrollment extractor, a requirement is classified common
iff its occurrence count across the grade-level requirement lists is at
least `floor(grade_level_count / 2)`; the extractor's `requirements` field
is exactly this inference applied to the parsed grade lists; and in the
concrete four-list scenario `Birth Certificate` (in three lists) is common
while `Medical Form` (in one list) is not. -/
theorem c3_common_requirement_threshold :
    (∀ (lists : List (List PyStr)) (r : PyStr),
        r ∈ ismCommonRequirements lists ↔
          r ∈ lists.flatten ∧ lists.length / 2 ≤ lists.flatten.count r) ∧
    (∀ doc : IsmEnrollDoc, doc.gradeRequirements ≠ [] →
        ∃ d, ismScrapeEnrollmentBody doc = pySuccess d ∧
          d.requirements =
            ismCommonRequirements (doc.gradeRequirements.map (fun g => g.2.requirements))) ∧
    exGradeLists.length = 4 ∧
    pyStr "Birth Certificate" ∈ ismCommonRequirements exGradeLists ∧
    pyStr "Medical Form" ∉ ismCommonRequirements exGradeLists := by
  refine ⟨?_, ?_, by decide, by decide, by decide⟩
  · intro lists r
    rw [ismCommonRequirements]
    simp only [List.mem_filter, mem_counterKeys, decide_eq_true_iff]
  · intro doc h
    rw [ismScrapeEnrollmentBody]
    refine ⟨_, rfl, ?_⟩
    simp [List.isEmpty_iff, h]

/-- Witness for C3: the second component applied to the concrete grade
document with four grade levels. -/
theorem c3_common_requirement_threshold_witness :
    exGradeDoc.gradeRequirements ≠ [] ∧
      ∃ d, ismScrapeEnrollmentBody exGradeDoc = pySuccess d ∧
        d.requirements =
          ismCommonRequirements (exGradeDoc.gradeRequirements.map (fun g => g.2.requirements)) :=
  ⟨by decide, c3_common_requirement_threshold.2.1 exGradeDoc (by decide)⟩

/-- C7: for a fixed scraper registry and a fixed input school name, the
dispatcher of `run_scrapers` is a pure function — identical inputs select
identical extractors — and with ISM and BSM registered, the name
`International School Manila` dispatches to the ISM extractor via the
acronym-derived (initials) match. -/
theorem c7_dispatch_deterministic :
    (∀ (registry : List (String × ScraperId)) (n₁ n₂ : String),
        n₁ = n₂ → runScrapersDispatch registry n₁ = runScrapersDispatch registry n₂) ∧
    runScrapersDispatch [("ISM", ScraperId.ism), ("BSM", ScraperId.bsm)]
        "International School Manila" = (ScraperId.ism, MatchRule.initialsMatch) := by
  refine ⟨fun registry n₁ n₂ h => h ▸ rfl, by decide⟩

/-- Witness for C7: the determinism component at the concrete registry and
name. -/
theorem c7_dispatch_deterministic_witness :
    ("International School Manila" : String) = "International School Manila" ∧
      runScrapersDispatch [("ISM", ScraperId.ism), ("BSM", ScraperId.bsm)]
          "International School Manila" =
        runScrapersDispatch [("ISM", ScraperId.ism), ("BSM", ScraperId.bsm)]
          "International School Manila" :=
  ⟨rfl, c7_dispatch_deterministic.1 [("ISM", ScraperId.ism), ("BSM", ScraperId.bsm)]
    "International School Manila" "International School Manila" rfl⟩

/-- C6: for every execution of an aggregate scrape — including executions
whose body throws — the rendering-engine teardown routine runs exactly once
(the invocation counter rises by exactly one) before the record is returned
or the exception propagates, and a propagated exception is the original one,
not a replacement. This holds for the shared aggregate structure and for the
full ISM and BSM runs. -/
theorem c6_teardown_exactly_once :
    (∀ (ρ : Type) (body : Except PyStr ρ) (n : Nat),
        (scrapeAggregate body n).2 = closePlaywright n ∧ closePlaywright n = n + 1) ∧
    (∀ (ρ : Type) (e : PyStr) (n : Nat),
        scrapeAggregate (Except.error e : Except PyStr ρ) n = (Except.error e, n + 1)) ∧
    (∀ (ρ : Type) (r : ρ) (n : Nat),
        scrapeAggregate (Except.ok r) n = (Except.ok r, n + 1)) ∧
    (∀ (σ γ : Type) (f1 : Except PyStr IsmFeesDoc) (f2 : Except PyStr IsmCurDoc)
        (f3 : Except PyStr IsmEnrollDoc) (f4 : Except PyStr σ) (f5 : Except PyStr γ)
        (n : Nat), (ismScrapeRun f1 f2 f3 f4 f5 n).2 = n + 1) ∧
    (∀ (κ γ : Type) (emailFind : PyStr → List PyStr) (fc : Except PyStr (Option κ))
        (fe : Except PyStr BsmEnrollDoc) (fci : Except PyStr γ) (n : Nat),
        (bsmScrapeRun emailFind fc fe fci n).2 = n + 1) := by
  refine ⟨?_, ?_, ?_, ?_, ?_⟩
  · intro ρ body n
    cases body <;> exact ⟨rfl, rfl⟩
  · intro ρ e n
    rfl
  · intro ρ r n
    rfl
  · intro σ γ f1 f2 f3 f4 f5 n
    rfl
  · intro κ γ emailFind fc fe fci n
    rfl

/-- C8: the aggregate scrape produces a complete output record with the
school name and all five category fields, each holding either the raw
success payload or the full status wrapper; in particular a record whose
every category errored still carries all five (wrapped) fields, and the
caller-side `run_scraper` receives a present record, never an absent one. -/
theorem c8_complete_record :
    (∀ (α : Type) (r : PyResult α),
        (r.status = "success" → fieldOf r = FieldVal.payload r.data) ∧
        (r.status ≠ "success" → fieldOf r = FieldVal.wrapper r)) ∧
    (∀ (σ γ : Type) (e1 e2 e3 e4 e5 : PyStr),
        ismBuildRecord (σ := σ) (γ := γ) (pyErr e1) (pyErr e2) (pyErr e3) (pyErr e4)
            (pyErr e5) =
          { name := "International School Manila",
            tuition_fees := FieldVal.wrapper (pyErr e1),
            curriculum := FieldVal.wrapper (pyErr e2),
            enrollment_process := FieldVal.wrapper (pyErr e3),
            scholarships := FieldVal.wrapper (pyErr e4),
            contact_info := FieldVal.wrapper (pyErr e5) }) ∧
    (∀ (σ γ : Type) (f1 : Except PyStr IsmFeesDoc) (f2 : Except PyStr IsmCurDoc)
        (f3 : Except PyStr IsmEnrollDoc) (f4 : Except PyStr σ) (f5 : Except PyStr γ)
        (n : Nat),
        ∃ rec, runScraper (ismScrapeRun f1 f2 f3 f4 f5 n).1 = some rec ∧
          rec.name = "International School Manila") := by
  refine ⟨?_, ?_, ?_⟩
  · intro α r
    constructor
    · intro h
      rw [fieldOf, if_pos h]
    · intro h
      rw [fieldOf, if_neg h]
  · intro σ γ e1 e2 e3 e4 e5
    rw [ismBuildRecord]
    have hw : ∀ (α : Type) (e : PyStr), fieldOf (pyErr (α := α) e) = FieldVal.wrapper (pyErr e) := by
      intro α e
      rw [fieldOf,
        if_neg (show ¬(pyErr (α := α) e).status = "success" from
          (by decide : ¬("error" : String) = "success"))]
    rw [hw, hw, hw, hw, hw]
  · intro σ γ f1 f2 f3 f4 f5 n
    exact ⟨_, rfl, rfl⟩

/-- Witness for C8: the status-dispatch component at a concrete success and
a concrete error result. -/
theorem c8_complete_record_witness :
    ((pySuccess () : PyResult Unit).status = "success" ∧
      fieldOf (pySuccess ()) = FieldVal.payload (some ())) ∧
    ((pyErr [] : PyResult Unit).status ≠ "success" ∧
      fieldOf (pyErr ([] : PyStr) : PyResult Unit) = FieldVal.wrapper (pyErr [])) := by
  refine ⟨⟨rfl, (c8_complete_record.1 Unit (pySuccess ())).1 rfl⟩, ⟨?_, ?_⟩⟩
  · decide
  · exact (c8_complete_record.1 Unit (pyErr ([] : PyStr))).2 (by decide)

/-- C1: every category extraction method returns a result whose status is
one of the six variants; an exception raised while fetching or parsing is
converted by the method's `try/except` wrapper into an error-status result
carrying the exception's message; and the aggregate scrape of the five total
category methods always returns a record (no exception crosses the
aggregate boundary). -/
theorem c1_six_status_variants :
    (∀ f : Except PyStr IsmFeesDoc, (ismScrapeTuitionFees f).status ∈ sixStatuses) ∧
    (∀ f : Except PyStr IsmCurDoc, (ismScrapeCurriculum f).status ∈ sixStatuses) ∧
    (∀ f : Except PyStr IsmEnrollDoc, (ismScrapeEnrollment f).status ∈ sixStatuses) ∧
    (∀ (σ : Type) (f : Except PyStr σ), (ismScrapeScholarships f).status ∈ sixStatuses) ∧
    (∀ (γ : Type) (f : Except PyStr γ), (ismScrapeContactInfo f).status ∈ sixStatuses) ∧
    bsmScrapeTuitionFees.status ∈ sixStatuses ∧
    (∀ (κ : Type) (f : Except PyStr (Option κ)),
        (bsmScrapeCurriculum f).status ∈ sixStatuses) ∧
    (∀ (emailFind : PyStr → List PyStr) (f : Except PyStr BsmEnrollDoc),
        (bsmScrapeEnrollment emailFind f).status ∈ sixStatuses) ∧
    bsmScrapeScholarships.status ∈ sixStatuses ∧
    (∀ (γ : Type) (f : Except PyStr γ), (bsmScrapeContactInfo f).status ∈ sixStatuses) ∧
    (∀ (δ α : Type) (body : δ → PyResult α) (e : PyStr),
        pyTryFetch body (Except.error e) = pyErr e) ∧
    (∀ (σ γ : Type) (f1 : Except PyStr IsmFeesDoc) (f2 : Except PyStr IsmCurDoc)
        (f3 : Except PyStr IsmEnrollDoc) (f4 : Except PyStr σ) (f5 : Except PyStr γ)
        (n : Nat), ∃ rec, (ismScrapeRun f1 f2 f3 f4 f5 n).1 = Except.ok rec) := by
  refine ⟨?_, ?_, ?_, ?_, ?_, by decide, ?_, ?_, by decide, ?_, ?_, ?_⟩
  · intro f
    cases f with
    | error e => exact mem_six_error
    | ok doc =>
      show (ismScrapeTuitionFeesBody doc).status ∈ sixStatuses
      rw [ismScrapeTuitionFeesBody]
      cases doc.tableTable with
      | none => exact mem_six_error
      | some rows => exact mem_six_success
  · intro f
    cases f with
    | error e => exact mem_six_error
    | ok doc => exact mem_six_success
  · intro f
    cases f with
    | error e => exact mem_six_error
    | ok doc => exact mem_six_success
  · intro σ f
    cases f with
    | error e => exact mem_six_error
    | ok d => exact mem_six_success
  · intro γ f
    cases f with
    | error e => exact mem_six_error
    | ok d => exact mem_six_success
  · intro κ f
    cases f with
    | error e => exact mem_six_error
    | ok opt =>
      cases opt with
      | none => exact mem_six_error
      | some d => exact mem_six_success
  · intro emailFind f
    cases f with
    | error e => exact mem_six_error
    | ok doc =>
      show (bsmScrapeEnrollmentBody emailFind doc).status ∈ sixStatuses
      rw [bsmScrapeEnrollmentBody]
      cases doc.hasTabsNav with
      | false => exact mem_six_error
      | true => exact mem_six_success
  · intro γ f
    cases f with
    | error e => exact mem_six_error
    | ok d => exact mem_six_success
  · intro δ α body e
    rfl
  · intro σ γ f1 f2 f3 f4 f5 n
    exact ⟨_, rfl⟩

/-- C2: the ISM tuition table scans are one-pass section state machines: a
header row (and only a header row) changes the `current_section` variable,
opening the section it names; while no section is open a non-header row
changes nothing; a data row is attributed only to the section most recently
opened and never to both sections; and on the concrete four-row table
`Grade 1` lands in `regular_program` and `Support A` in
`specialized_program`, with zero cross-attribution. -/
theorem c2_section_state_machine :
    (∀ (st : TuitScanState) (row : Row),
        (ismTuitionPrimaryStep st row).current =
          match ismPrimaryRowHeader row with
          | some s => some s
          | none => st.current) ∧
    (∀ (st : TuitScanState) (row : Row),
        (ismTuitionAltStep st row).current =
          match ismAltRowHeader row with
          | some s => some s
          | none => st.current) ∧
    (∀ (st : TuitScanState) (row : Row), st.current = none →
        ismPrimaryRowHeader row = none → ismTuitionPrimaryStep st row = st) ∧
    (∀ (st : TuitScanState) (row : Row), st.current = none →
        ismAltRowHeader row = none → ismTuitionAltStep st row = st) ∧
    (∀ (st : TuitScanState) (row : Row),
        (ismTuitionPrimaryStep st row).regular ≠ st.regular →
          st.current = some Sect.regular ∧
            (ismTuitionPrimaryStep st row).specialized = st.specialized) ∧
    (∀ (st : TuitScanState) (row : Row),
        (ismTuitionPrimaryStep st row).specialized ≠ st.specialized →
          st.current = some Sect.specialized ∧
            (ismTuitionPrimaryStep st row).regular = st.regular) ∧
    (∀ (st : TuitScanState) (row : Row),
        (ismTuitionAltStep st row).regular ≠ st.regular →
          st.current = some Sect.regular ∧
            (ismTuitionAltStep st row).specialized = st.specialized) ∧
    (∀ (st : TuitScanState) (row : Row),
        (ismTuitionAltStep st row).specialized ≠ st.specialized →
          st.current = some Sect.specialized ∧
            (ismTuitionAltStep st row).regular = st.regular) ∧
    ismScrapeTuitionFees (Except.ok exFeesDoc) =
      pySuccess
        { regular_program := [(pyStr "Grade 1", ⟨pyStr "100", pyStr "50", pyStr "50"⟩)],
          specialized_program := [(pyStr "Support A", ⟨pyStr "80", pyStr "40", pyStr "40"⟩)] } :=
  ⟨ismTuitionPrimaryStep_current, ismTuitionAltStep_current,
   ismTuitionPrimaryStep_inert, ismTuitionAltStep_inert,
   ismTuitionPrimaryStep_regular, ismTuitionPrimaryStep_specialized,
   ismTuitionAltStep_regular, ismTuitionAltStep_specialized, by decide⟩

/-- Witness for C2: the no-section-inert component applied to a concrete
state and data row. -/
theorem c2_section_state_machine_witness :
    (({} : TuitScanState).current = none ∧
        ismAltRowHeader [pyStr "Grade 9", pyStr "100"] = none) ∧
      ismTuitionAltStep {} [pyStr "Grade 9", pyStr "100"] = {} :=
  ⟨⟨rfl, by decide⟩,
   c2_section_state_machine.2.2.2.1 {} [pyStr "Grade 9", pyStr "100"] rfl (by decide)⟩

/-- Counterexample for C4: the ISM enrollment extractor does not re-sort
numbered steps — step headings encountered in document order
Step 3, Step 1, Step 2 are emitted in the same document order, not as
Step 1, Step 2, Step 3. -/
theorem c4_step_reordering_counterexample :
    ((ismScrapeEnrollmentBody exIsmEnrollDoc).data.map
        (fun d => d.steps.map (fun s => s.title))) =
      some [pyStr "Step 3", pyStr "Step 1", pyStr "Step 2"] ∧
    ((ismScrapeEnrollmentBody exIsmEnrollDoc).data.map
        (fun d => d.steps.map (fun s => s.title))) ≠
      some [pyStr "Step 1", pyStr "Step 2", pyStr "Step 3"] := by
  constructor <;> decide

/-- C4 (amended): the BSM enrollment extractor re-sorts its steps by parsed
step number (the output is sorted by `step_number` and is a permutation of
the steps collected in document order; panels in document order 3, 1, 2 are
emitted as 1, 2, 3), while the ISM enrollment extractor emits its steps in
document order: its output step titles equal the tab titles in document
order. -/
theorem c4_step_reordering_amended :
    (∀ (emailFind : PyStr → List PyStr) (doc : BsmEnrollDoc), doc.hasTabsNav = true →
        ∃ d, bsmScrapeEnrollmentBody emailFind doc = pySuccess d ∧
          d.application_process = bsmSortSteps (bsmEnrollScan emailFind doc).steps ∧
          d.application_process.Pairwise (fun a b => a.stepNumber ≤ b.stepNumber) ∧
          d.application_process.Perm (bsmEnrollScan emailFind doc).steps) ∧
    ((bsmScrapeEnrollmentBody (fun _ => []) exBsmEnrollDoc).data.map
        (fun d => d.application_process.map (fun s => s.title))) =
      some [pyStr "Step 1", pyStr "Step 2", pyStr "Step 3"] ∧
    (∀ doc : IsmEnrollDoc, doc.processTabs.isEmpty = false →
        doc.processTabs.length = doc.processContents.length →
        ∃ d, ismScrapeEnrollmentBody doc = pySuccess d ∧
          d.steps.map (fun s => s.title) = doc.processTabs) := by
  refine ⟨?_, by decide, ?_⟩
  · intro emailFind doc h
    rw [bsmScrapeEnrollmentBody]
    rw [h]
    refine ⟨_, rfl, rfl, bsmSortSteps_sorted _, bsmSortSteps_perm _⟩
  · intro doc h1 h2
    rw [ismScrapeEnrollmentBody]
    refine ⟨_, rfl, ?_⟩
    simp only [h1, Bool.not_false, h2, if_pos, and_self, if_true, true_and]
    rw [if_pos (by simp)]
    rw [List.map_map]
    have : ((fun (s : IsmStep) => s.title) ∘
        (fun (tc : PyStr × IsmStepContent) =>
          ({ title := tc.1, description := tc.2.text,
             items := if tc.2.listItems.isEmpty then none
               else some tc.2.listItems } : IsmStep))) =
        fun (tc : PyStr × IsmStepContent) => tc.1 := rfl
    rw [this]
    have hle : doc.processTabs.length ≤ doc.processContents.length := le_of_eq h2
    exact List.map_fst_zip doc.processTabs doc.processContents hle

/-- Witness for C4 (amended): the BSM sortedness component applied to the
concrete 3, 1, 2 panel document. -/
theorem c4_step_reordering_amended_witness :
    exBsmEnrollDoc.hasTabsNav = true ∧
      ∃ d, bsmScrapeEnrollmentBody (fun _ => []) exBsmEnrollDoc = pySuccess d ∧
        d.application_process = bsmSortSteps (bsmEnrollScan (fun _ => []) exBsmEnrollDoc).steps ∧
        d.application_process.Pairwise (fun a b => a.stepNumber ≤ b.stepNumber) ∧
        d.application_process.Perm (bsmEnrollScan (fun _ => []) exBsmEnrollDoc).steps :=
  ⟨rfl, c4_step_reordering_amended.1 (fun _ => []) exBsmEnrollDoc rfl⟩

/-- Counterexample for C5: on a document where `table.table` matches zero
nodes but other tables carry extractable program rows, the ISM tuition
extractor returns a terminal error result immediately — the alternative scan
over all tables, which would have found data, is not attempted. -/
theorem c5_fallback_ladder_counterexample :
    ismScrapeTuitionFees (Except.ok exNoPrimaryDoc) =
        pyErr (pyStr "Tuition fee table not found") ∧
      (ismTuitionAltScan exNoPrimaryDoc.allTables).regular ≠ [] := by
  constructor <;> decide

/-- C5 (amended): when `table.table` matches zero nodes the ISM tuition
extractor returns an error result immediately, without attempting the
alternative all-tables scan; the alternative scan is attempted on the same
document only when `table.table` was found but the primary scan attributed
no rows to either program section. -/
theorem c5_fallback_ladder_amended :
    (∀ doc : IsmFeesDoc, doc.tableTable = none →
        ismScrapeTuitionFees (Except.ok doc) = pyErr (pyStr "Tuition fee table not found")) ∧
    (∀ (doc : IsmFeesDoc) (rows : List Row), doc.tableTable = some rows →
        (ismTuitionPrimaryScan rows).regular = [] →
        (ismTuitionPrimaryScan rows).specialized = [] →
        ∃ td, ismScrapeTuitionFees (Except.ok doc) = pySuccess td ∧
          td.regular_program = (ismTuitionAltScan doc.allTables).regular ∧
          td.specialized_program = (ismTuitionAltScan doc.allTables).specialized) := by
  constructor
  · intro doc h
    show ismScrapeTuitionFeesBody doc = pyErr (pyStr "Tuition fee table not found")
    rw [ismScrapeTuitionFeesBody, h]
  · intro doc rows h1 h2 h3
    show ∃ td, ismScrapeTuitionFeesBody doc = pySuccess td ∧ _ ∧ _
    simp only [ismScrapeTuitionFeesBody, h1]
    split_ifs with hc
    · exact ⟨_, rfl, rfl, rfl⟩
    · rw [h2, h3] at hc
      have hs := ismContentFees_sections
        { regular_program := [], specialized_program := [] } doc.contentSection
      simp [hs.1, hs.2] at hc

/-- Witness for C5 (amended): the immediate-error component at the concrete
document without a `table.table` node. -/
theorem c5_fallback_ladder_amended_witness :
    exNoPrimaryDoc.tableTable = none ∧
      ismScrapeTuitionFees (Except.ok exNoPrimaryDoc) =
        pyErr (pyStr "Tuition fee table not found") :=
  ⟨rfl, c5_fallback_ladder_amended.1 exNoPrimaryDoc rfl⟩

/-- Counterexample for C10: a non-empty URL that is fetched successfully but
yields no extractable content produces a `From {url}:` chunk carrying the
placeholder of `_extract_content`, not the `"No data available"` sentinel —
so the fetched-but-empty case is distinguishable from the
no-source-configured case. -/
theorem c10_scrape_field_counterexample :
    scrapeField (PyField.listField [pyStr "u"]) (pyStr "school_fee") exEmptyFetch =
        pyStr "From u:\nNo structured data found" ∧
      scrapeField (PyField.listField [pyStr "u"]) (pyStr "school_fee") exEmptyFetch ≠
        pyStr "No data available" := by
  constructor <;> decide

/-- C10 (amended): `_scrape_field` always returns a non-empty string; it
returns the sentinel `"No data available"` when the catalog supplies no URL
for the field (falsy field value) and equally when every supplied URL is the
empty string (skipped without fetching) — these two cases are
indistinguishable to callers — but a non-empty URL fetched successfully
always contributes a `From {url}:` chunk (content extraction never returns
an empty string), so sources-fetched-but-empty is not reported by the
sentinel. -/
theorem c10_scrape_field_amended :
    (∀ (field : PyField) (fieldName : PyStr) (fetch : PyStr → Except PyStr SoupView),
        scrapeField field fieldName fetch ≠ []) ∧
    (∀ (field : PyField) (fieldName : PyStr) (fetch : PyStr → Except PyStr SoupView),
        pyFieldFalsy field = true →
        scrapeField field fieldName fetch = pyStr "No data available") ∧
    (∀ (urls : List PyStr) (fieldName : PyStr) (fetch : PyStr → Except PyStr SoupView),
        (∀ u ∈ urls, u = []) →
        scrapeField (PyField.listField urls) fieldName fetch = pyStr "No data available") ∧
    (∀ (url : PyStr) (v : SoupView) (fieldName : PyStr)
        (fetch : PyStr → Except PyStr SoupView), url ≠ [] → fetch url = Except.ok v →
        scrapeField (PyField.listField [url]) fieldName fetch =
            pyStr "From " ++ url ++ pyStr ":\n" ++ extractContent v fieldName ∧
          extractContent v fieldName ≠ []) := by
  refine ⟨?_, ?_, ?_, ?_⟩
  · intro field fieldName fetch
    by_cases hf : pyFieldFalsy field = true
    · rw [scrapeField.eq_def, if_pos hf]
      simp [pyStr]
    · cases field with
      | noField => exact absurd rfl hf
      | strField s =>
        rw [scrapeField.eq_def, if_neg hf]
        exact scrapeField_join_ne_nil fieldName fetch [s]
      | listField l =>
        rw [scrapeField.eq_def, if_neg hf]
        exact scrapeField_join_ne_nil fieldName fetch l
  · intro field fieldName fetch h
    rw [scrapeField.eq_def, if_pos h]
  · intro urls fieldName fetch h
    cases urls with
    | nil => simp [scrapeField, pyFieldFalsy]
    | cons u rest =>
      have hfold := scrapeField_fold_empty fieldName fetch (u :: rest) [] h
      simp only [scrapeField, pyFieldFalsy, List.isEmpty_cons, Bool.false_eq_true, if_false,
        hfold, List.isEmpty_nil, if_true]
  · intro url v fieldName fetch hu hv
    refine ⟨?_, extractContent_ne_nil v fieldName⟩
    have hce := extractContent_ne_nil v fieldName
    have hfalsy : ¬pyFieldFalsy (PyField.listField [url]) = true := by
      simp [pyFieldFalsy]
    simp only [scrapeField, hfalsy, if_false, List.foldl_cons, List.foldl_nil]
    rw [show scrapeFieldStep fieldName fetch [] url =
        [pyStr "From " ++ url ++ pyStr ":\n" ++ extractContent v fieldName] by
      rw [scrapeFieldStep, if_neg (by simp [hu]), hv]
      simp [hce]]
    rfl

/-- Witness for C10 (amended): the fetched-URL component at a concrete URL
and an everywhere-empty page. -/
theorem c10_scrape_field_amended_witness :
    (pyStr "u" ≠ [] ∧ exEmptyFetch (pyStr "u") = Except.ok {}) ∧
      (scrapeField (PyField.listField [pyStr "u"]) (pyStr "school_fee") exEmptyFetch =
          pyStr "From " ++ pyStr "u" ++ pyStr ":\n" ++
            extractContent {} (pyStr "school_fee") ∧
        extractContent {} (pyStr "school_fee") ≠ []) :=
  ⟨⟨by decide, rfl⟩,
   c10_scrape_field_amended.2.2.2 (pyStr "u") {} (pyStr "school_fee") exEmptyFetch
     (by decide) rfl⟩

end LICS
